import Mathlib

/-!
Formal model of the SkinSenseAI backend (Node/Express, TypeScript).

The development shallowly embeds the parts of the backend that the
verified properties talk about:

* the education/enrichment service (`education.service.ts`):
  condition-name normalization, the disease metadata lookup with its
  three-level fallback, prediction enrichment, chat availability and the
  demo RAG answers;
* the chat controller (`chat.controller.ts`) together with the chat
  request validation middleware (`validation.middleware.ts`);
* the failure translation of `AIService.analyzeImage` (`ai.service.ts`);
* the initial Prisma migration (`migration.sql`);
* the login controller (`auth.controller.ts` / part of the controllers
  module) with bcrypt comparison and JWT signing kept abstract;
* the image-upload validation middleware (`validation.middleware.ts`).

Modelling conventions: TypeScript `Record<string, T>` objects become
association lists of own properties, but a property read `obj[key]` on a
plain object (an object literal or a `JSON.parse` result) follows the
JavaScript prototype chain: when `key` is not an own property but is one
of the `Object.prototype` member names, the read yields that truthy
inherited member (`jsGetProp`); values that may consequently be
`undefined` are `Option`s and code paths that throw a `TypeError` return
`Except.error`.  JavaScript string interpolation becomes string
concatenation, the AI confidence score becomes a rational number (the
source only ever compares it against the literal `0.5`), and external
effectful collaborators (the Prisma user table, `bcrypt.compare`,
`jwt.sign`, the remote AI endpoints) become explicit parameters.
Wall-clock timestamps attached to responses are elided.
-/

namespace SkinSense

/-! ## Education service: data model (`education.service.ts`, `response.types.ts`) -/

/-- The TypeScript union type `"low" | "medium" | "high"` used for the
`urgencyLevel` metadata field and the `urgency_level` result field. -/
inductive UrgencyLevel
  | low
  | medium
  | high
deriving DecidableEq

/-- Interface `DiseaseMetadata` of `education.service.ts`: the educational
metadata stored for one disease key in `diseases.json`. -/
structure DiseaseMetadata where
  condition : String
  urgencyLevel : UrgencyLevel
  requiresImmediateAttention : Bool
  chatEnabled : Bool
  demoDescription : String
deriving DecidableEq

/-- Type `DiseaseDatabase = Record<string, DiseaseMetadata>`: the parsed
content of `diseases.json`.  The JSON file itself is a deployment artifact
loaded in the service constructor, so the database is an explicit
parameter of every modelled method. -/
abbrev DiseaseDatabase := List (String × DiseaseMetadata)

/-- The own property names of `Object.prototype`.  A plain JavaScript
object — an object literal such as the alias table, or a `JSON.parse`
result such as the disease database — inherits these members through its
prototype chain, so `obj[key]` yields a truthy value for these keys even
when `obj` has no own property `key`.  Every member is truthy: all are
functions except the `__proto__` accessor, which yields the (truthy)
`Object.prototype` object; none is a string and none has the shape of a
`DiseaseMetadata`. -/
def objectPrototypeMembers : List String :=
  ["constructor", "hasOwnProperty", "isPrototypeOf", "propertyIsEnumerable",
   "toLocaleString", "toString", "valueOf", "__proto__", "__defineGetter__",
   "__defineSetter__", "__lookupGetter__", "__lookupSetter__"]

/-- Result of the JavaScript property read `obj[key]` on a plain object:
an own property, a member inherited from `Object.prototype` (truthy, but
neither a string nor a metadata record), or `undefined`. -/
inductive JsLookup (α : Type)
  | own (a : α)
  | inherited (name : String)
  | undefinedProp
deriving DecidableEq

/-- The JavaScript property read `obj[key]` for a plain object with own
properties `props`: own property first, then the prototype chain, then
`undefined`. -/
def jsGetProp {α : Type} (props : List (String × α)) (key : String) : JsLookup α :=
  match props.lookup key with
  | some a => .own a
  | none => if objectPrototypeMembers.contains key then .inherited key else .undefinedProp

/-- The record produced by `enrichPrediction` (interface `AnalysisResult`
of `response.types.ts`).  When the looked-up metadata is an inherited
`Object.prototype` member instead of a real entry, every property read on
it yields `undefined`, modelled as `none`. -/
structure AnalysisResult where
  condition : Option String
  confidence : ℚ
  urgency_level : Option UrgencyLevel
  requires_immediate_attention : Option Bool
  chat_available : Option Bool
  description : Option String
  note : String
deriving DecidableEq

/-! ## Education service: condition-name normalization -/

/-- JavaScript `String.prototype.toLowerCase`, modelled on the ASCII
range (`Char.toLower` lowercases exactly the letters `A`–`Z`). -/
def jsToLower (s : String) : String :=
  String.mk (s.data.map Char.toLower)

/-- The alias table of `normalizeConditionName` (step 2), in source
order. -/
def conditionAliases : List (String × String) :=
  [("atopic dermatitis", "eczema"),
   ("atopic_dermatitis", "eczema"),
   ("contact dermatitis", "dermatitis"),
   ("contact_dermatitis", "dermatitis"),
   ("acne vulgaris", "acne"),
   ("acne_vulgaris", "acne"),
   ("fungal infection", "fungal_infection"),
   ("ringworm", "fungal_infection"),
   ("athlete\x27s foot", "fungal_infection"),
   ("tinea", "fungal_infection")]

/-- One step of `replaceBackslashS`, consuming one character from the
left.  The state carries, for the suffix processed so far, the
replacement result of the suffix itself, the replacement result of the
suffix with its leading run of `s` characters dropped, and whether the
suffix starts with an `s`. -/
def replaceBackslashSStep (c : Char) :
    List Char × List Char × Bool → List Char × List Char × Bool
  | (r, rs, leadS) =>
    let r2 := if c == '\\' && leadS then '_' :: rs else c :: r
    let rs2 := if c == 's' then rs else r2
    (r2, rs2, c == 's')

/-- Step 3 of `normalizeConditionName`:
`normalized.replace(/\\s+/g, '_')`.  In the source the regex literal is
`/\\s+/g`, whose pattern `\\s+` matches a literal backslash followed by
one or more letters `s` (the backslash is escaped, so this is not the
whitespace class); every leftmost-greedy match is replaced by one
underscore.  Spaces are consequently left alone by this step.  The
replacement is computed in a single structural pass so that it evaluates
by kernel reduction: for each suffix the fold keeps both the replaced
suffix and the replaced suffix after dropping its leading `s` run, which
is exactly what a backslash arriving on the left needs. -/
def replaceBackslashS (l : List Char) : List Char :=
  (l.foldr replaceBackslashSStep ([], [], false)).1

/-- Step 4 of `normalizeConditionName`: the character class kept by
`normalized.replace(/[^a-z0-9_]/g, '')`. -/
def isKeptChar (c : Char) : Bool :=
  ('a' ≤ c && c ≤ 'z') || ('0' ≤ c && c ≤ '9') || c == '_'

/-- Method `normalizeConditionName` of `EducationService`: lowercase,
alias substitution, the (backslash-`s`) replacement of step 3, then
removal of every character outside `[a-z0-9_]`.  The alias lookup
`aliases[normalized]` is a JavaScript property read on an object
literal: when the lowercased input is `"constructor"` or `"__proto__"`
it yields the truthy inherited `Object.prototype` member (no other
inherited name is all-lowercase, and lowercasing never produces an
uppercase letter), the `if (aliases[normalized])` branch assigns that
non-string to `normalized`, and step 3's `normalized.replace(...)`
throws a `TypeError`.  The own alias values are nonempty strings, hence
truthy, so the own case always substitutes. -/
def normalizeConditionName (condition : String) : Except String String :=
  let normalized := jsToLower condition
  match jsGetProp conditionAliases normalized with
  | .inherited _ => .error "normalized.replace is not a function"
  | .own a => .ok (String.mk ((replaceBackslashS a.data).filter isKeptChar))
  | .undefinedProp => .ok (String.mk ((replaceBackslashS normalized.data).filter isKeptChar))

/-! ## Education service: metadata lookup and enrichment -/

/-- The hardcoded last-resort profile of `getDiseaseMetadata`. -/
def fallbackMetadata : DiseaseMetadata :=
  { condition := "Unknown Condition"
    urgencyLevel := .high
    requiresImmediateAttention := false
    chatEnabled := false
    demoDescription := "Unable to identify condition. Please consult a healthcare professional." }

/-- The value `getDiseaseMetadata` hands back: a real database entry, or
a member inherited from `Object.prototype` (truthy, so the source
returns it as if it were metadata; every subsequent property read on it
yields `undefined`). -/
inductive MetadataVal
  | entry (m : DiseaseMetadata)
  | protoMember (name : String)
deriving DecidableEq

/-- Property read `metadata.condition` on the looked-up value. -/
def MetadataVal.conditionVal : MetadataVal → Option String
  | .entry m => some m.condition
  | .protoMember _ => none

/-- Property read `metadata.urgencyLevel` on the looked-up value. -/
def MetadataVal.urgencyLevelVal : MetadataVal → Option UrgencyLevel
  | .entry m => some m.urgencyLevel
  | .protoMember _ => none

/-- Property read `metadata.requiresImmediateAttention` on the looked-up
value. -/
def MetadataVal.requiresImmediateAttentionVal : MetadataVal → Option Bool
  | .entry m => some m.requiresImmediateAttention
  | .protoMember _ => none

/-- Property read `metadata.demoDescription` on the looked-up value. -/
def MetadataVal.demoDescriptionVal : MetadataVal → Option String
  | .entry m => some m.demoDescription
  | .protoMember _ => none

/-- Method `getDiseaseMetadata`: the property read
`this.diseaseDatabase[normalizedCondition]` on the `JSON.parse` result —
an own entry, or a truthy inherited `Object.prototype` member, which
passes the `if (metadata)` truthiness test and is returned directly,
bypassing both fallbacks (the database object inherits from
`Object.prototype` even when it is the empty `{}` fallback) — then the
`unknown` entry, then the hardcoded fallback. -/
def getDiseaseMetadata (db : DiseaseDatabase) (normalizedCondition : String) :
    MetadataVal :=
  match jsGetProp db normalizedCondition with
  | .own metadata => .entry metadata
  | .inherited name => .protoMember name
  | .undefinedProp =>
    match jsGetProp db "unknown" with
    | .own unknownMetadata => .entry unknownMetadata
    | .inherited name => .protoMember name
    | .undefinedProp => .entry fallbackMetadata

/-- JavaScript truthiness of a possibly-`undefined` boolean value. -/
def truthyOptBool : Option Bool → Bool
  | some b => b
  | none => false

/-- Method `enrichPrediction`: normalizes the condition (propagating its
`TypeError`), fetches the metadata, computes chat availability
(`chatEnabled && confidence >= 0.5 && !requiresImmediateAttention`,
which short-circuits to `undefined` when `metadata.chatEnabled` is an
`undefined` read on an inherited member) and assembles the
`AnalysisResult`. -/
def enrichPrediction (db : DiseaseDatabase) (condition : String) (confidence : ℚ) :
    Except String AnalysisResult :=
  match normalizeConditionName condition with
  | .error e => .error e
  | .ok normalizedCondition =>
    let metadata := getDiseaseMetadata db normalizedCondition
    let chatAvailable : Option Bool :=
      match metadata with
      | .entry m =>
        some (m.chatEnabled && decide (confidence ≥ mkRat 1 2) &&
          !m.requiresImmediateAttention)
      | .protoMember _ => none
    .ok
      { condition := metadata.conditionVal
        confidence := confidence
        urgency_level := metadata.urgencyLevelVal
        requires_immediate_attention := metadata.requiresImmediateAttentionVal
        chat_available := chatAvailable
        description := metadata.demoDescriptionVal
        note :=
          if truthyOptBool chatAvailable then
            "Chat enabled - Use /api/chat endpoint for RAG-powered Q&A"
          else if truthyOptBool metadata.requiresImmediateAttentionVal then
            "URGENT: Seek immediate medical attention"
          else
            "Confidence too low for chat - consult healthcare professional" }

/-- Method `isChatEnabled`: `metadata?.chatEnabled || false` on the
direct database property read (no `unknown` fallback here); an
inherited member or a missing entry reads `chatEnabled` as `undefined`,
hence `false`; the normalization `TypeError` propagates. -/
def isChatEnabled (db : DiseaseDatabase) (condition : String) : Except String Bool :=
  match normalizeConditionName condition with
  | .error e => .error e
  | .ok normalized =>
    match jsGetProp db normalized with
    | .own metadata => .ok metadata.chatEnabled
    | .inherited _ => .ok false
    | .undefinedProp => .ok false


/-! ## Education service: demo RAG responses -/

/-- JavaScript `String.prototype.includes`, by checking each suffix. -/
def jsIncludes (s sub : String) : Bool :=
  go s.data
where
  go : List Char -> Bool
    | [] => sub.data.isPrefixOf []
    | c :: rest => sub.data.isPrefixOf (c :: rest) || go rest

/-- The `eczema` entry of the `response` object in `getDemoRAGResponse`,
with the template-literal interpolation on the lowercased question
resolved into concatenation. -/
def eczemaDemoText (question : String) : String :=
  "**Demo RAG Response for Eczema:**\n      Based on medical documentation, here\x27s what you should know:\n\n      " ++
    (if jsIncludes (jsToLower question) "treat" then
      "**Treatment:** Keep skin moisturized with fragrance-free lotions. Avoid harsh soaps and hot water. Use topical corticosteroids as prescribed by your doctor. Consider antihistamines for severe itching."
    else if jsIncludes (jsToLower question) "cause" then
      "**Causes:** Eczema is caused by a combination of genetic factors and environmental triggers including allergens, irritants, stress, and climate changes."
    else
      "**General Info:** Eczema is a chronic inflammatory skin condition. Consult a dermatologist for personalized treatment.") ++
    "\n\n      *Note: This is demo data. Real RAG will provide comprehensive, sourced medical information.*"

/-- The `fungal_infection` entry of the `response` object in
`getDemoRAGResponse`. -/
def fungalDemoText (question : String) : String :=
  "**Demo RAG Response for Fungal Infection:**\n\n      " ++
    (if jsIncludes (jsToLower question) "treat" then
      "**Treatment:** Apply antifungal cream (clotrimazole, miconazole) twice daily for 2-4 weeks. Keep area clean and dry. Wear breathable clothing. Complete full treatment course even if symptoms improve."
    else
      "**General Info:** Fungal infections are contagious. Avoid sharing personal items. If OTC treatments don\x27t work after 2 weeks, see a doctor.") ++
    "\n\n      *Note: Demo response - Real RAG will provide detailed, evidence-based answers with sources.*"

/-- The default answer of `getDemoRAGResponse` when the normalized
disease has no entry in the `response` object. -/
def defaultDemoText (disease question : String) : String :=
  "**Demo RAG Response:**\n\nThis is a simulated response for \"" ++ disease ++
    "\".\n\nQuestion: " ++ question ++
    "\n\n*Real RAG integration coming soon - will provide comprehensive medical information from official documentation.*"

/-- What `getDemoRAGResponse` evaluates to: a string answer, or — when
the normalized disease hits an inherited `Object.prototype` member of
the two-entry `response` object literal — that truthy inherited member
itself. -/
inductive DemoRAGAnswer
  | str (s : String)
  | protoMember (name : String)
deriving DecidableEq

/-- Method `getDemoRAGResponse` of `EducationService`: normalize the
disease (propagating its `TypeError`), read
`response[normalizedDisease]` on the two-entry object literal — an own
answer (nonempty, hence truthy), a truthy inherited `Object.prototype`
member, or `undefined` — and fall back to the generic simulated answer
on `undefined` (`response[normalizedDisease] || ...`). -/
def getDemoRAGResponse (disease question : String) : Except String DemoRAGAnswer :=
  match normalizeConditionName disease with
  | .error e => .error e
  | .ok normalizedDisease =>
    let response : List (String × String) :=
      [("eczema", eczemaDemoText question),
       ("fungal_infection", fungalDemoText question)]
    match jsGetProp response normalizedDisease with
    | .own answer => .ok (.str answer)
    | .inherited name => .ok (.protoMember name)
    | .undefinedProp => .ok (.str (defaultDemoText disease question))

/-! ## Chat endpoint (`validation.middleware.ts`, `chat.controller.ts`) -/

/-- Interface `ValidationError` of `response.types.ts`. -/
structure ValidationError where
  field : String
  message : String
deriving DecidableEq

/-- The `chatResponse` object assembled by the `chatWithRAG` controller
and sent as the `data` of the 200 response. -/
structure ChatSuccessData where
  question : String
  answer : DemoRAGAnswer
  disease : String
  source : List String
  isDemoResponse : Bool
  note : String
deriving DecidableEq

/-- Observable outcome of a POST to `/api/chat`: a 400
validation-failure response from the middleware, an `AppError` rendered
by the error middleware with its status code, the generic-error path of
the error middleware (status 500) taken when a non-`AppError` — the
normalization `TypeError` — escapes the controller, or the 200 success
response. -/
inductive ChatOutcome
  | badRequest (errors : List ValidationError)
  | appError (message : String) (statusCode : Nat)
  | serverError (message : String)
  | ok (data : ChatSuccessData)
deriving DecidableEq

/-- JavaScript `String.prototype.trim`: strip leading and trailing
whitespace. -/
def jsTrim (s : String) : String :=
  String.mk (((s.data.dropWhile Char.isWhitespace).reverse.dropWhile Char.isWhitespace).reverse)

/-- Middleware `validateChatRequest`: collects an error when the
question is missing, empty or whitespace-only, and an error when the
disease is missing or empty (JavaScript falsiness of a string is
emptiness). -/
def validateChatRequest (question disease : Option String) : List ValidationError :=
  let errors : List ValidationError := []
  let questionMissing :=
    match question with
    | none => true
    | some q => q == "" || jsTrim q == ""
  let errors :=
    if questionMissing then errors ++ [⟨"question", "Question is Required"⟩] else errors
  let diseaseMissing :=
    match disease with
    | none => true
    | some d => d == ""
  let errors :=
    if diseaseMissing then errors ++ [⟨"disease", "Disease information is required"⟩] else errors
  errors

set_option linter.unusedVariables false in
/-- The `/api/chat` pipeline: `validateChatRequest` then the
`chatWithRAG` controller.  `externalRagAnswer` is the answer the
external RAG chat service would return for this request; the deployed
controller never contacts that service (the `aiService.chatWithRAG`
call is commented out behind a TODO) and instead answers with
`educationService.getDemoRAGResponse`, so the parameter is unused. -/
def chatEndpoint (db : DiseaseDatabase) (externalRagAnswer : String)
    (question disease : Option String) : ChatOutcome :=
  let errors := validateChatRequest question disease
  if errors.length > 0 then
    .badRequest errors
  else
    let q := question.getD ""
    let d := disease.getD ""
    match isChatEnabled db d with
    | .error e => .serverError e
    | .ok chatEnabled =>
      if !chatEnabled then
        .appError "Chat is not available for this condition. Please consult a healthcare professional!" 403
      else
        match getDemoRAGResponse d q with
        | .error e => .serverError e
        | .ok demoAnswer =>
          .ok
            { question := q
              answer := demoAnswer
              disease := d
              source := []
              isDemoResponse := true
              note := "This is demo response. Real RAG integration is in process." }

/-! ## AI proxy service: failure translation (`ai.service.ts`) -/

/-- The body of a non-2xx upstream HTTP response as axios exposes it in
`error.response.data`: JSON `null` (or an absent body), a string body,
or an object body of which only the `message` and `error` members are
ever read. -/
inductive UpstreamBody
  | jnull
  | jstr (s : String)
  | jobj (message : Option String) (error : Option String)
deriving DecidableEq

/-- The failure cases `AIService.analyzeImage` distinguishes: an axios
timeout (`code === "ECONNABORTED"`), a refused connection
(`code === "ECONNREFUSED"`), an upstream non-2xx HTTP response, and
every other error. -/
inductive AxiosFailure
  | econnaborted
  | econnrefused
  | httpResponse (status : Nat) (body : UpstreamBody)
  | otherFailure
deriving DecidableEq

/-- What escapes from the `catch` block of `analyzeImage`: either the
`AppError` the code means to throw, or a raw `TypeError` raised while
the `catch` block itself evaluates. -/
inductive AnalyzeThrown
  | appError (message : String) (statusCode : Nat)
  | typeError (message : String)
deriving DecidableEq

/-- JavaScript truthiness of an optional string member: present and
nonempty. -/
def truthyMember : Option String → Option String
  | some s => if s == "" then none else some s
  | none => none

/-- The error translation in the `catch` block of
`AIService.analyzeImage`.  For an upstream HTTP error response the
source computes

`data?.message || data?.error(typeof data === "string" ? data : "Analysis failed")`

— note the missing `||` after `data?.error`: this expression CALLS the
`error` member.  When `data` is nullish both optional chains yield
`undefined` and the thrown `AppError` message interpolates to
`"AI service error: undefined"`.  When `data` is non-null and has no
truthy `message`, the call is evaluated; a JSON-parsed body never holds
a function, so the evaluation raises `TypeError` and that raw
`TypeError`, not an `AppError`, propagates out of `analyzeImage`. -/
def analyzeImageCatch : AxiosFailure → AnalyzeThrown
  | .econnaborted =>
    .appError "AI analysis timed out. Please try again with different image." 504
  | .econnrefused =>
    .appError "AI service is currently unavailable. Please Try again later." 503
  | .httpResponse status body =>
    match body with
    | .jnull => .appError "AI service error: undefined" status
    | .jstr _ => .typeError "data.error is not a function"
    | .jobj message _ =>
      match truthyMember message with
      | some m => .appError ("AI service error: " ++ m) status
      | none => .typeError "data.error is not a function"
  | .otherFailure =>
    .appError "An unexpected error occurred during analysis." 500

/-! ## Login controller (`login` in the auth controllers) -/

/-- A row of the `users` table as the login controller reads it
(`password` holds the bcrypt hash). -/
structure UserRecord where
  id : String
  email : String
  password : String
deriving DecidableEq

/-- The observable login response: HTTP status, the `success` and
`message` body fields, and on success the returned user id, email and
token (the wall-clock `timeStamp` and `createAt` echo are elided). -/
structure LoginResponse where
  status : Nat
  success : Bool
  message : String
  data : Option (String × String × String)
deriving DecidableEq

/-- The `login` controller.  `users` models the Prisma `users` table
(`findUnique` on the unique `email` column becomes first-match search),
`bcryptCompare supplied stored` models `bcrypt.compare`, and `jwtSign`
models `jwt.sign({ userId }, secret)` over the user id. -/
def login (users : List UserRecord) (bcryptCompare : String → String → Bool)
    (jwtSign : String → String) (email password : Option String) : LoginResponse :=
  let e := email.getD ""
  let p := password.getD ""
  if e == "" || p == "" then
    { status := 400, success := false, message := "Email and password are required.", data := none }
  else
    match users.find? (fun u => u.email == e) with
    | none =>
      { status := 401, success := false, message := "Invalid email or password", data := none }
    | some user =>
      if bcryptCompare p user.password then
        { status := 200, success := true, message := "Login Successful",
          data := some (user.id, user.email, jwtSign user.id) }
      else
        { status := 401, success := false, message := "Invalid email or password", data := none }

/-! ## Persistence schema (`prisma/migrations/20260216045352_init/migration.sql`) -/

/-- The SQL column types the migration uses. -/
inductive SqlType
  | text
  | doublePrecision
  | timestamp3
deriving DecidableEq

/-- One column of a `CREATE TABLE` statement. -/
structure ColumnDef where
  name : String
  sqlType : SqlType
  notNull : Bool
  defaultNow : Bool
deriving DecidableEq

/-- One `CREATE TABLE` statement with its primary-key constraint. -/
structure TableDef where
  name : String
  columns : List ColumnDef
  primaryKey : List String
deriving DecidableEq

/-- One `CREATE INDEX` / `CREATE UNIQUE INDEX` statement. -/
structure IndexDef where
  name : String
  table : String
  columns : List String
  unique : Bool
deriving DecidableEq

/-- One `ADD CONSTRAINT ... FOREIGN KEY` statement. -/
structure ForeignKeyDef where
  constraintName : String
  table : String
  column : String
  refTable : String
  refColumn : String
  onDelete : String
  onUpdate : String
deriving DecidableEq

/-- A relational schema as a set of DDL statements. -/
structure SchemaDef where
  tables : List TableDef
  indexes : List IndexDef
  foreignKeys : List ForeignKeyDef
deriving DecidableEq

/-- The initial (and only) migration, statement by statement. -/
def initMigration : SchemaDef :=
  { tables :=
      [{ name := "users"
         columns :=
           [{ name := "id", sqlType := .text, notNull := true, defaultNow := false },
            { name := "email", sqlType := .text, notNull := true, defaultNow := false },
            { name := "password", sqlType := .text, notNull := true, defaultNow := false },
            { name := "createdAt", sqlType := .timestamp3, notNull := true, defaultNow := true },
            { name := "updatedAt", sqlType := .timestamp3, notNull := true, defaultNow := false }]
         primaryKey := ["id"] },
       { name := "assessments"
         columns :=
           [{ name := "id", sqlType := .text, notNull := true, defaultNow := false },
            { name := "userId", sqlType := .text, notNull := true, defaultNow := false },
            { name := "imageUrl", sqlType := .text, notNull := true, defaultNow := false },
            { name := "condition", sqlType := .text, notNull := true, defaultNow := false },
            { name := "confidence", sqlType := .doublePrecision, notNull := true, defaultNow := false },
            { name := "description", sqlType := .text, notNull := false, defaultNow := false },
            { name := "urgencyLevel", sqlType := .text, notNull := false, defaultNow := false },
            { name := "timestamp", sqlType := .timestamp3, notNull := true, defaultNow := true }]
         primaryKey := ["id"] },
       { name := "chat_history"
         columns :=
           [{ name := "id", sqlType := .text, notNull := true, defaultNow := false },
            { name := "assessmentId", sqlType := .text, notNull := true, defaultNow := false },
            { name := "question", sqlType := .text, notNull := true, defaultNow := false },
            { name := "answer", sqlType := .text, notNull := true, defaultNow := false },
            { name := "timestamp", sqlType := .timestamp3, notNull := true, defaultNow := true }]
         primaryKey := ["id"] },
       { name := "consent_logs"
         columns :=
           [{ name := "id", sqlType := .text, notNull := true, defaultNow := false },
            { name := "userId", sqlType := .text, notNull := true, defaultNow := false },
            { name := "consentId", sqlType := .text, notNull := true, defaultNow := false },
            { name := "timestamp", sqlType := .timestamp3, notNull := true, defaultNow := true }]
         primaryKey := ["id"] }]
    indexes :=
      [{ name := "users_email_key", table := "users", columns := ["email"], unique := true },
       { name := "assessments_userId_idx", table := "assessments", columns := ["userId"], unique := false },
       { name := "chat_history_assessmentId_idx", table := "chat_history", columns := ["assessmentId"], unique := false },
       { name := "consent_logs_consentId_key", table := "consent_logs", columns := ["consentId"], unique := true },
       { name := "consent_logs_userId_idx", table := "consent_logs", columns := ["userId"], unique := false }]
    foreignKeys :=
      [{ constraintName := "assessments_userId_fkey", table := "assessments", column := "userId",
         refTable := "users", refColumn := "id", onDelete := "CASCADE", onUpdate := "CASCADE" },
       { constraintName := "chat_history_assessmentId_fkey", table := "chat_history", column := "assessmentId",
         refTable := "assessments", refColumn := "id", onDelete := "CASCADE", onUpdate := "CASCADE" },
       { constraintName := "consent_logs_userId_fkey", table := "consent_logs", column := "userId",
         refTable := "users", refColumn := "id", onDelete := "CASCADE", onUpdate := "CASCADE" }] }

/-! ## Image-upload validation (`validation.middleware.ts`) -/

/-- A hexadecimal digit as matched case-insensitively by `[0-9a-f]`
under the `i` flag. -/
def isHexDigit (c : Char) : Bool :=
  ('0' ≤ c && c ≤ '9') || ('a' ≤ c && c ≤ 'f') || ('A' ≤ c && c ≤ 'F')

/-- Splits a character list on `-`, keeping empty groups, for the
dash-separated group structure the UUID regex demands. -/
def splitOnDash (l : List Char) : List (List Char) :=
  l.foldr
    (fun c acc =>
      match acc with
      | g :: gs => if c == '-' then [] :: g :: gs else (c :: g) :: gs
      | [] => [[c]])
    [[]]

/-- The test
`/^[0-9a-f]{8}-[0-9a-f]{4}-[0-9a-f]{4}-[0-9a-f]{4}-[0-9a-f]{12}$/i.test s`:
the string is five dash-separated groups of hexadecimal digits with
lengths 8-4-4-4-12 (a dash is not a hexadecimal digit, so the group
decomposition is exactly the regex match). -/
def uuidRegexAccepts (s : String) : Bool :=
  let groups := splitOnDash s.data
  (groups.map List.length == [8, 4, 4, 4, 12]) && groups.all (fun g => g.all isHexDigit)

/-- Outcome of the `validateImageUpload` middleware: hand the request to
the controller (`next()`), or answer 400 with the collected validation
errors and never invoke the controller. -/
inductive UploadValidationOutcome
  | proceed
  | badRequest (errors : List ValidationError)
deriving DecidableEq

/-- Middleware `validateImageUpload`, run after multer: collect an error
for a missing file, an error for a missing (or empty, hence falsy)
`consentId`, and an error for a present but malformed `consentId`; 400
with the list if anything failed, otherwise `next()`. -/
def validateImageUpload (hasFile : Bool) (consentId : Option String) :
    UploadValidationOutcome :=
  let errors : List ValidationError := []
  let errors :=
    if !hasFile then errors ++ [⟨"Image", "Image File is required"⟩] else errors
  let consentIdTruthy :=
    match consentId with
    | some s => !(s == "")
    | none => false
  let errors :=
    if !consentIdTruthy then errors ++ [⟨"ConsentId", "Consent ID is required"⟩] else errors
  let errors :=
    if consentIdTruthy && !uuidRegexAccepts (consentId.getD "") then
      errors ++ [⟨"consentId", "Invalid consent ID Format"⟩]
    else errors
  if errors.length > 0 then .badRequest errors else .proceed


/-! ## Sample data and spec-side descriptions used by the theorems -/

/-- A sample `diseases.json` entry with chat enabled and no immediate
attention required (the deployed `diseases.json` is a runtime artifact
that is not part of the repository sources, so concrete databases are
supplied explicitly). -/
def sampleEczema : DiseaseMetadata :=
  { condition := "Eczema (Atopic Dermatitis)"
    urgencyLevel := .medium
    requiresImmediateAttention := false
    chatEnabled := true
    demoDescription := "A chronic inflammatory skin condition." }

/-- A sample entry that requires immediate attention and has chat
disabled. -/
def sampleMelanoma : DiseaseMetadata :=
  { condition := "Melanoma"
    urgencyLevel := .high
    requiresImmediateAttention := true
    chatEnabled := false
    demoDescription := "A serious form of skin cancer." }

/-- A sample `unknown` profile. -/
def sampleUnknown : DiseaseMetadata :=
  { condition := "Unknown Condition"
    urgencyLevel := .medium
    requiresImmediateAttention := false
    chatEnabled := false
    demoDescription := "Condition could not be identified." }

/-- A sample disease database of the shape `diseases.json` provides. -/
def sampleDb : DiseaseDatabase :=
  [("eczema", sampleEczema), ("melanoma", sampleMelanoma), ("unknown", sampleUnknown)]

/-- Modelled from the spec side of the upload-validation claim: one
validation error for every failed check — missing file, missing (or
empty, hence falsy) `consentId`, present but malformed `consentId` — in
the order the middleware runs the checks.  To be compared with
`validateImageUpload`. -/
def specUploadErrors (hasFile : Bool) (consentId : Option String) : List ValidationError :=
  (if hasFile then [] else [⟨"Image", "Image File is required"⟩]) ++
    (match consentId with
     | none => [⟨"ConsentId", "Consent ID is required"⟩]
     | some s =>
       if s = "" then [⟨"ConsentId", "Consent ID is required"⟩]
       else if uuidRegexAccepts s then []
       else [⟨"consentId", "Invalid consent ID Format"⟩])

/-! ## Helper lemmas -/

/-- `Char.ofNat` inverts `Char.toNat` on valid code points. -/
theorem char_toNat_ofNat_valid (n : Nat) (h : n.isValidChar) :
    (Char.ofNat n).toNat = n := by
  rw [Char.ofNat, dif_pos h]
  rfl

/-- ASCII lowercasing of a character is idempotent. -/
theorem char_toLower_idem (c : Char) : c.toLower.toLower = c.toLower := by
  by_cases h : c.toNat ≥ 65 ∧ c.toNat ≤ 90
  · have hv : Nat.isValidChar (c.toNat + 32) := Or.inl (by omega)
    have ht : (Char.ofNat (c.toNat + 32)).toNat = c.toNat + 32 :=
      char_toNat_ofNat_valid _ hv
    simp only [Char.toLower, if_pos h, ht]
    rw [if_neg (by omega)]
  · simp only [Char.toLower, if_neg h]

/-- Lowercasing a character list twice is the same as once. -/
theorem map_toLower_idem (l : List Char) :
    List.map Char.toLower (List.map Char.toLower l) = List.map Char.toLower l := by
  induction l with
  | nil => rfl
  | cons a l ih => simp [char_toLower_idem, ih]

/-- `jsToLower` is idempotent. -/
theorem jsToLower_idem (s : String) : jsToLower (jsToLower s) = jsToLower s :=
  congrArg String.mk (map_toLower_idem s.data)

/-- Normalization is invariant under pre-lowercasing, because its first
step lowercases. -/
theorem normalizeConditionName_jsToLower (s : String) :
    normalizeConditionName (jsToLower s) = normalizeConditionName s := by
  unfold normalizeConditionName
  rw [jsToLower_idem]


/-! ## Claim C1 -/

/-- C1, as stated, is false: `chat_available` is not determined by the
condition label alone.  At the explicit input `sampleDb` / `"eczema"`,
confidence `9/10` yields `chat_available = some true` while confidence
`4/10` yields `chat_available = some false`, because `enrichPrediction`
conjoins the threshold test `confidence >= 0.5` into chat
availability. -/
theorem c1_counterexample :
    enrichPrediction sampleDb "eczema" (mkRat 9 10) =
      .ok { condition := some "Eczema (Atopic Dermatitis)", confidence := mkRat 9 10,
            urgency_level := some .medium, requires_immediate_attention := some false,
            chat_available := some true,
            description := some "A chronic inflammatory skin condition.",
            note := "Chat enabled - Use /api/chat endpoint for RAG-powered Q&A" } ∧
    enrichPrediction sampleDb "eczema" (mkRat 4 10) =
      .ok { condition := some "Eczema (Atopic Dermatitis)", confidence := mkRat 4 10,
            urgency_level := some .medium, requires_immediate_attention := some false,
            chat_available := some false,
            description := some "A chronic inflammatory skin condition.",
            note := "Confidence too low for chat - consult healthcare professional" } :=
  ⟨rfl, rfl⟩

/-- C1 (amended): for a fixed database, the `urgency_level` outcome is
determined by the condition label alone, and the `chat_available`
outcome is determined by the condition label together with which side
of the `0.5` threshold the confidence lies on: two calls with the same
condition whose confidences agree on the threshold test return the same
`urgency_level` and the same `chat_available` flag (inputs that throw
throw identically for both confidences). -/
theorem c1_urgency_by_condition_chat_by_threshold (db : DiseaseDatabase)
    (condition : String) (conf1 conf2 : ℚ)
    (h : conf1 ≥ mkRat 1 2 ↔ conf2 ≥ mkRat 1 2) :
    (enrichPrediction db condition conf1).map (fun r => r.urgency_level) =
      (enrichPrediction db condition conf2).map (fun r => r.urgency_level) ∧
    (enrichPrediction db condition conf1).map (fun r => r.chat_available) =
      (enrichPrediction db condition conf2).map (fun r => r.chat_available) := by
  have hd : decide (conf1 ≥ mkRat 1 2) = decide (conf2 ≥ mkRat 1 2) :=
    decide_eq_decide.mpr h
  cases hn : normalizeConditionName condition with
  | error e => simp [enrichPrediction, hn, Except.map]
  | ok n =>
    cases hm : getDiseaseMetadata db n with
    | entry m => simp [enrichPrediction, hn, hm, hd, Except.map, MetadataVal.urgencyLevelVal]
    | protoMember name => simp [enrichPrediction, hn, hm, Except.map, MetadataVal.urgencyLevelVal]

/-- Witness for C1 (amended) at `sampleDb`, condition `"eczema"`,
confidences `9/10` and `6/10` (both above the threshold). -/
theorem c1_urgency_by_condition_chat_by_threshold_witness :
    (enrichPrediction sampleDb "eczema" (mkRat 9 10)).map (fun r => r.urgency_level) =
      (enrichPrediction sampleDb "eczema" (mkRat 6 10)).map (fun r => r.urgency_level) ∧
    (enrichPrediction sampleDb "eczema" (mkRat 9 10)).map (fun r => r.chat_available) =
      (enrichPrediction sampleDb "eczema" (mkRat 6 10)).map (fun r => r.chat_available) :=
  c1_urgency_by_condition_chat_by_threshold sampleDb "eczema" (mkRat 9 10) (mkRat 6 10)
    (by decide)

/-! ## Claim C2 -/

/-- C2 names a code bug.  The timeout, refused-connection and
unknown-error translations are exactly as claimed (504, 503, 500, all
`AppError`, no retry), but the non-2xx branch is broken: at the failing
input — an upstream 500 whose JSON object body has no `message` (and,
like every JSON value, no callable `error` member) — the `catch` block
evaluates the call `data?.error(...)` and a raw `TypeError`, not an
`AppError` carrying a message derived from the body, escapes
`analyzeImage`.  The comment in the source ("Try multiple common error
message formats ... Fallback to generic message") documents the
intended `data?.message || data?.error || ...` chain, so the missing
`||` is a slip. -/
theorem c2_failure_translation_bug :
    analyzeImageCatch .econnaborted =
      .appError "AI analysis timed out. Please try again with different image." 504 ∧
    analyzeImageCatch .econnrefused =
      .appError "AI service is currently unavailable. Please Try again later." 503 ∧
    analyzeImageCatch .otherFailure =
      .appError "An unexpected error occurred during analysis." 500 ∧
    analyzeImageCatch (.httpResponse 500 (.jobj none none)) =
      .typeError "data.error is not a function" :=
  ⟨rfl, rfl, rfl, rfl⟩

/-! ## Claim C3 -/

/-- C3, as stated, is false: the lookup-table description breaks on the
JS prototype chain.  At the explicit input `"Constructor."` — which
normalizes to `"constructor"`, not an own key of `sampleDb` — the
database property read returns the truthy inherited
`Object.prototype.constructor` instead of falling back to the `unknown`
entry, so the returned fields are all `undefined` and in particular the
`condition` field differs from the `unknown` entry's; and at
`"constructor"` the call throws a `TypeError` in
`normalizeConditionName` before any database lookup. -/
theorem c3_counterexample :
    sampleDb.lookup "constructor" = none ∧
    sampleDb.lookup "unknown" = some sampleUnknown ∧
    enrichPrediction sampleDb "Constructor." (mkRat 7 10) =
      .ok { condition := none, confidence := mkRat 7 10, urgency_level := none,
            requires_immediate_attention := none, chat_available := none,
            description := none,
            note := "Confidence too low for chat - consult healthcare professional" } ∧
    (none : Option String) ≠ some sampleUnknown.condition ∧
    enrichPrediction sampleDb "constructor" (mkRat 7 10) =
      .error "normalized.replace is not a function" :=
  ⟨rfl, rfl, rfl, by decide, rfl⟩

/-- C3 (amended): away from the prototype-chain corner — for condition
strings whose normalization does not throw and whose normalized label
is not an `Object.prototype` member name — and assuming the loaded
database owns the key `unknown`, `enrichPrediction` is the claimed
lookup-table transformation: the returned `condition`, `urgency_level`,
`requires_immediate_attention` and `description` fields are the
corresponding fields of the database entry at the normalized label,
falling back to the `unknown` entry when that label is not a key.
(Determinism for identical arguments against a fixed database is
immediate because the model is a pure function.) -/
theorem c3_enrich_is_lookup (db : DiseaseDatabase) (condition : String)
    (confidence : ℚ) (n : String) (u : DiseaseMetadata)
    (hn : normalizeConditionName condition = .ok n)
    (hp : n ∉ objectPrototypeMembers)
    (hu : db.lookup "unknown" = some u) :
    (enrichPrediction db condition confidence).map (fun r => r.condition) =
      .ok (some ((db.lookup n).getD u).condition) ∧
    (enrichPrediction db condition confidence).map (fun r => r.urgency_level) =
      .ok (some ((db.lookup n).getD u).urgencyLevel) ∧
    (enrichPrediction db condition confidence).map
        (fun r => r.requires_immediate_attention) =
      .ok (some ((db.lookup n).getD u).requiresImmediateAttention) ∧
    (enrichPrediction db condition confidence).map (fun r => r.description) =
      .ok (some ((db.lookup n).getD u).demoDescription) := by
  have hmeta : getDiseaseMetadata db n = .entry ((db.lookup n).getD u) := by
    unfold getDiseaseMetadata jsGetProp
    cases hl : db.lookup n with
    | some m => simp [hl]
    | none => simp [hl, hp, hu]
  simp [enrichPrediction, hn, hmeta, Except.map, MetadataVal.conditionVal,
    MetadataVal.urgencyLevelVal, MetadataVal.requiresImmediateAttentionVal,
    MetadataVal.demoDescriptionVal]

/-- Witness for C3 (amended) at `sampleDb` (whose `unknown` entry is
`sampleUnknown`), condition `"Ringworm"` — an alias that normalizes to
`"fungal_infection"` (not a prototype member name), which is not a key
of `sampleDb`, so the `unknown` fallback is exercised. -/
theorem c3_enrich_is_lookup_witness :
    (enrichPrediction sampleDb "Ringworm" (mkRat 7 10)).map (fun r => r.condition) =
      .ok (some ((sampleDb.lookup "fungal_infection").getD sampleUnknown).condition) ∧
    (enrichPrediction sampleDb "Ringworm" (mkRat 7 10)).map (fun r => r.urgency_level) =
      .ok (some ((sampleDb.lookup "fungal_infection").getD sampleUnknown).urgencyLevel) ∧
    (enrichPrediction sampleDb "Ringworm" (mkRat 7 10)).map
        (fun r => r.requires_immediate_attention) =
      .ok (some ((sampleDb.lookup "fungal_infection").getD
        sampleUnknown).requiresImmediateAttention) ∧
    (enrichPrediction sampleDb "Ringworm" (mkRat 7 10)).map (fun r => r.description) =
      .ok (some ((sampleDb.lookup "fungal_infection").getD
        sampleUnknown).demoDescription) :=
  c3_enrich_is_lookup sampleDb "Ringworm" (mkRat 7 10) "fungal_infection" sampleUnknown
    rfl (by decide) rfl

/-! ## Claim C4 -/

/-- C4, as stated, is false: the deployed chat pipeline does not forward
the question to the external RAG chat service, and the `answer` of the
200 response is not what that service returns.  At the explicit input —
a valid request for `"eczema"` (chat enabled in `sampleDb`) while the
external service would answer `"ANSWER-FROM-EXTERNAL-RAG-SERVICE"` —
the response carries the locally generated demo answer, which differs
from the external answer. -/
theorem c4_counterexample :
    getDemoRAGResponse "eczema" "How can I treat this?" =
      .ok (.str (eczemaDemoText "How can I treat this?")) ∧
    chatEndpoint sampleDb "ANSWER-FROM-EXTERNAL-RAG-SERVICE"
        (some "How can I treat this?") (some "eczema") =
      .ok { question := "How can I treat this?"
            answer := .str (eczemaDemoText "How can I treat this?")
            disease := "eczema"
            source := []
            isDemoResponse := true
            note := "This is demo response. Real RAG integration is in process." } ∧
    DemoRAGAnswer.str (eczemaDemoText "How can I treat this?") ≠
      .str "ANSWER-FROM-EXTERNAL-RAG-SERVICE" :=
  ⟨rfl, rfl, by decide⟩

/-- C4 (amended): for every chat request that passes validation
(non-whitespace question, nonempty disease) and whose disease has chat
enabled, the 200 response's `answer` equals exactly what the local
`getDemoRAGResponse disease question` evaluates to; the answer the
external RAG service would give (`ragAnswer`) does not influence the
response, because the `aiService.chatWithRAG` call is commented out
behind a TODO. -/
theorem c4_chat_answers_demo (db : DiseaseDatabase) (ragAnswer question disease : String)
    (hq : jsTrim question ≠ "") (hd0 : disease ≠ "")
    (hd : isChatEnabled db disease = .ok true) :
    chatEndpoint db ragAnswer (some question) (some disease) =
      match getDemoRAGResponse disease question with
      | .ok demoAnswer =>
        .ok { question := question
              answer := demoAnswer
              disease := disease
              source := []
              isDemoResponse := true
              note := "This is demo response. Real RAG integration is in process." }
      | .error e => .serverError e := by
  have hq0 : (question == "") = false :=
    beq_eq_false_iff_ne.mpr (fun h => hq (by rw [h]; rfl))
  have hq1 : (jsTrim question == "") = false := beq_eq_false_iff_ne.mpr hq
  have hd1 : (disease == "") = false := beq_eq_false_iff_ne.mpr hd0
  cases hdemo : getDemoRAGResponse disease question with
  | ok demoAnswer =>
    simp [chatEndpoint, validateChatRequest, hq0, hq1, hd1, hd, hdemo]
  | error e =>
    simp [chatEndpoint, validateChatRequest, hq0, hq1, hd1, hd, hdemo]

/-- Witness for C4 (amended) at `sampleDb`, disease `"eczema"`,
question `"How can I treat this?"`. -/
theorem c4_chat_answers_demo_witness :
    chatEndpoint sampleDb "ANY-EXTERNAL-ANSWER" (some "How can I treat this?")
        (some "eczema") =
      match getDemoRAGResponse "eczema" "How can I treat this?" with
      | .ok demoAnswer =>
        .ok { question := "How can I treat this?"
              answer := demoAnswer
              disease := "eczema"
              source := []
              isDemoResponse := true
              note := "This is demo response. Real RAG integration is in process." }
      | .error e => .serverError e :=
  c4_chat_answers_demo sampleDb "ANY-EXTERNAL-ANSWER" "How can I treat this?" "eczema"
    (by decide) (by decide) rfl

/-! ## Claim C5 -/

/-- C5, as stated, is false: besides referential integrity the schema
does impose further integrity invariants — the migration creates the
UNIQUE index `users_email_key` on `users.email` (and a second unique
index on `consent_logs.consentId`), a uniqueness invariant that is not
referential integrity. -/
theorem c5_counterexample :
    ({ name := "users_email_key", table := "users", columns := ["email"],
       unique := true } : IndexDef) ∈ initMigration.indexes ∧
    (initMigration.indexes.filter (fun i => i.unique)).length = 2 :=
  ⟨by decide, by decide⟩

/-- C5 (amended): the schema consists of exactly the four claimed
tables with exactly the three claimed foreign keys, and the only
integrity invariants beyond referential integrity (and the per-table
primary keys and NOT NULL column constraints) are two uniqueness
invariants: the unique indexes on `users.email` and on
`consent_logs.consentId`. -/
theorem c5_schema_shape :
    initMigration.tables.map TableDef.name =
      ["users", "assessments", "chat_history", "consent_logs"] ∧
    initMigration.foreignKeys.map
        (fun fk => (fk.table, fk.column, fk.refTable, fk.refColumn)) =
      [("assessments", "userId", "users", "id"),
       ("chat_history", "assessmentId", "assessments", "id"),
       ("consent_logs", "userId", "users", "id")] ∧
    initMigration.indexes.filter (fun i => i.unique) =
      [{ name := "users_email_key", table := "users", columns := ["email"],
         unique := true },
       { name := "consent_logs_consentId_key", table := "consent_logs",
         columns := ["consentId"], unique := true }] :=
  ⟨rfl, rfl, by decide⟩

/-! ## Claim C6 -/

/-- Evaluation of the `login` controller once the input-presence guard
has passed: `findUnique` on the email, then the bcrypt comparison. -/
theorem login_eq (users : List UserRecord) (cmp : String → String → Bool)
    (sign : String → String) (e p : String)
    (he : (e == "") = false) (hp : (p == "") = false) :
    login users cmp sign (some e) (some p) =
      (match users.find? (fun x => x.email == e) with
       | none =>
         { status := 401, success := false, message := "Invalid email or password",
           data := none }
       | some user =>
         if cmp p user.password then
           { status := 200, success := true, message := "Login Successful",
             data := some (user.id, user.email, sign user.id) }
         else
           { status := 401, success := false, message := "Invalid email or password",
             data := none }) := by
  simp [login, he, hp]

/-- C6, as stated, is false at an explicit input: for the unknown email
`""` (no user carries it — the user table is empty) the endpoint does
not respond 401 as claimed but 400, because the input-presence guard
(`!email || !password`) fires on the falsy empty string before the
user lookup. -/
theorem c6_counterexample :
    (login [] (fun _ _ => false) (fun s => s) (some "") (some "secret")).status = 400 ∧
    (login [] (fun _ _ => false) (fun s => s) (some "") (some "secret")).status ≠ 401 :=
  ⟨rfl, by decide⟩

/-- C6 (amended): for requests whose email and password are both
nonempty (an empty or missing field is falsy and yields 400 with no
token), the endpoint responds 200 with a token signed over the found
user's id exactly when the user lookup by email succeeds and the bcrypt
comparison of the supplied password against that user's stored hash
succeeds; otherwise it responds 401 with "Invalid email or password"
and no token.  (`users.find?` on the email models Prisma `findUnique`
backed by the unique `users_email_key` index.) -/
theorem c6_login_exactly_when (users : List UserRecord)
    (cmp : String → String → Bool) (sign : String → String) (e p : String)
    (he : e ≠ "") (hp : p ≠ "") :
    ((login users cmp sign (some e) (some p)).status = 200 ↔
      ∃ u, users.find? (fun x => x.email == e) = some u ∧ cmp p u.password = true) ∧
    (∀ u, users.find? (fun x => x.email == e) = some u → cmp p u.password = true →
      login users cmp sign (some e) (some p) =
        { status := 200, success := true, message := "Login Successful",
          data := some (u.id, u.email, sign u.id) }) ∧
    ((login users cmp sign (some e) (some p)).status ≠ 200 →
      login users cmp sign (some e) (some p) =
        { status := 401, success := false, message := "Invalid email or password",
          data := none }) := by
  have he' : (e == "") = false := beq_eq_false_iff_ne.mpr he
  have hp' : (p == "") = false := beq_eq_false_iff_ne.mpr hp
  rw [login_eq users cmp sign e p he' hp']
  cases hf : users.find? (fun x => x.email == e) with
  | none => simp
  | some u =>
    cases hc : cmp p u.password with
    | true => simp [hc]
    | false => simp [hc]

/-- Witness for C6 (amended): a one-user table where the supplied
password passes the bcrypt comparison, giving 200 with the token signed
over the user's id. -/
theorem c6_login_exactly_when_witness :
    login [⟨"u1", "a@b.c", "stored-hash"⟩]
        (fun p h => p == "pw1" && h == "stored-hash") (fun s => s)
        (some "a@b.c") (some "pw1") =
      { status := 200, success := true, message := "Login Successful",
        data := some ("u1", "a@b.c", "u1") } :=
  (c6_login_exactly_when [⟨"u1", "a@b.c", "stored-hash"⟩]
      (fun p h => p == "pw1" && h == "stored-hash") (fun s => s) "a@b.c" "pw1"
      (by decide) (by decide)).2.1
    ⟨"u1", "a@b.c", "stored-hash"⟩ (by decide) (by decide)


/-! ## Claim C7 -/

/-- C7: the request reaches the controller (`next()`) exactly when it
carries an uploaded file and a nonempty `consentId` matching the
case-insensitive 8-4-4-4-12 hexadecimal UUID shape; otherwise the
middleware answers 400 with exactly one validation error per failed
check (`specUploadErrors`), and that list is nonempty. -/
theorem c7_upload_validation (hasFile : Bool) (consentId : Option String) :
    (validateImageUpload hasFile consentId = .proceed ↔
      hasFile = true ∧
        ∃ s, consentId = some s ∧ s ≠ "" ∧ uuidRegexAccepts s = true) ∧
    (∀ errs, validateImageUpload hasFile consentId = .badRequest errs →
      errs = specUploadErrors hasFile consentId ∧ errs ≠ []) := by
  cases consentId with
  | none => cases hasFile <;> simp [validateImageUpload, specUploadErrors]
  | some s =>
    by_cases hs : s = ""
    · subst hs
      cases hasFile <;> simp [validateImageUpload, specUploadErrors]
    · have hs' : (s == "") = false := beq_eq_false_iff_ne.mpr hs
      cases hu : uuidRegexAccepts s with
      | true =>
        cases hasFile <;> simp [validateImageUpload, specUploadErrors, hs', hu, hs]
      | false =>
        cases hasFile <;> simp [validateImageUpload, specUploadErrors, hs', hu, hs]

/-- Witness for C7 at the concrete request with no file and the
malformed `consentId` `"xyz"`: the middleware reports exactly the
missing-file and malformed-consentId errors. -/
theorem c7_upload_validation_witness :
    ([⟨"Image", "Image File is required"⟩,
      ⟨"consentId", "Invalid consent ID Format"⟩] : List ValidationError) =
      specUploadErrors false (some "xyz") ∧
    ([⟨"Image", "Image File is required"⟩,
      ⟨"consentId", "Invalid consent ID Format"⟩] : List ValidationError) ≠ [] :=
  (c7_upload_validation false (some "xyz")).2
    [⟨"Image", "Image File is required"⟩, ⟨"consentId", "Invalid consent ID Format"⟩]
    (by decide)

/-! ## Claim C8 -/

/-- C8, as stated, is false: `enrichPrediction` is not total and its
`urgency_level` is not always one of the three levels.  On the empty
database — the very fallback database the claim covers — the input
`"constructor"` throws a `TypeError` inside `normalizeConditionName`
(the alias read hits the truthy inherited
`Object.prototype.constructor` and `.replace` is then called on a
non-string), and the input `"Constructor."` normalizes to
`"constructor"`, whose database read hits the same inherited member
before either fallback, so the result's `urgency_level` is `undefined`
— none of `low`, `medium`, `high`. -/
theorem c8_counterexample :
    enrichPrediction [] "constructor" (mkRat 1 2) =
      .error "normalized.replace is not a function" ∧
    (enrichPrediction [] "Constructor." (mkRat 1 2)).map (fun r => r.urgency_level) =
      .ok none ∧
    (none : Option UrgencyLevel) ≠ some .low ∧
    (none : Option UrgencyLevel) ≠ some .medium ∧
    (none : Option UrgencyLevel) ≠ some .high :=
  ⟨rfl, rfl, by decide, by decide, by decide⟩

/-- C8 (amended): outside the prototype-chain corner cases,
`enrichPrediction` is total with three-level urgency: whenever
normalization succeeds and the normalized label is not an
`Object.prototype` member name, the call returns a result (no throw)
whose `urgency_level` is one of `low`, `medium`, `high`, for every
database and confidence — including the empty database, which lacks
both the normalized label and the `unknown` key and exercises the
hardcoded third fallback level of `getDiseaseMetadata`, whose urgency
is `high`. -/
theorem c8_enrich_total_three_level (db : DiseaseDatabase) (condition : String)
    (confidence : ℚ) (n : String)
    (hn : normalizeConditionName condition = .ok n)
    (hp : n ∉ objectPrototypeMembers) :
    ((enrichPrediction db condition confidence).map (fun r => r.urgency_level) =
        .ok (some .low) ∨
      (enrichPrediction db condition confidence).map (fun r => r.urgency_level) =
        .ok (some .medium) ∨
      (enrichPrediction db condition confidence).map (fun r => r.urgency_level) =
        .ok (some .high)) ∧
    getDiseaseMetadata [] n = .entry fallbackMetadata ∧
    fallbackMetadata.urgencyLevel = .high := by
  have hunknown : "unknown" ∉ objectPrototypeMembers := by decide
  have hmeta : ∃ m, getDiseaseMetadata db n = .entry m := by
    unfold getDiseaseMetadata jsGetProp
    cases hl : db.lookup n with
    | some m => exact ⟨m, by simp [hl]⟩
    | none =>
      cases hu : db.lookup "unknown" with
      | some u => exact ⟨u, by simp [hl, hp, hu]⟩
      | none => exact ⟨fallbackMetadata, by simp [hl, hp, hu, hunknown]⟩
  obtain ⟨m, hm⟩ := hmeta
  have hval : (enrichPrediction db condition confidence).map
      (fun r => r.urgency_level) = .ok (some m.urgencyLevel) := by
    simp [enrichPrediction, hn, hm, Except.map, MetadataVal.urgencyLevelVal]
  refine ⟨?_, ?_, rfl⟩
  · cases hm2 : m.urgencyLevel with
    | low => exact Or.inl (by rw [hval, hm2])
    | medium => exact Or.inr (Or.inl (by rw [hval, hm2]))
    | high => exact Or.inr (Or.inr (by rw [hval, hm2]))
  · unfold getDiseaseMetadata jsGetProp
    simp [hp, hunknown]

/-- Witness for C8 (amended) on the empty database with condition
`"Basal Cell"` (normalizing to `"basalcell"`): the hardcoded fallback is
produced and its urgency is `high`. -/
theorem c8_enrich_total_three_level_witness :
    ((enrichPrediction [] "Basal Cell" (mkRat 1 2)).map (fun r => r.urgency_level) =
        .ok (some .low) ∨
      (enrichPrediction [] "Basal Cell" (mkRat 1 2)).map (fun r => r.urgency_level) =
        .ok (some .medium) ∨
      (enrichPrediction [] "Basal Cell" (mkRat 1 2)).map (fun r => r.urgency_level) =
        .ok (some .high)) ∧
    getDiseaseMetadata [] "basalcell" = .entry fallbackMetadata ∧
    fallbackMetadata.urgencyLevel = .high :=
  c8_enrich_total_three_level [] "Basal Cell" (mkRat 1 2) "basalcell" rfl (by decide)

/-! ## Claim C9 -/

/-- C9: login failure is observationally uniform — the full response
for an email with no registered user equals the full response for a
registered email whose bcrypt comparison fails, both being 401 with
message "Invalid email or password", so the caller cannot tell from the
response which check failed.  (Both requests must pass the
input-presence guard, i.e. have nonempty fields.) -/
theorem c9_login_failure_uniform (users : List UserRecord)
    (cmp : String → String → Bool) (sign : String → String)
    (e1 p1 e2 p2 : String) (u : UserRecord)
    (he1 : e1 ≠ "") (hp1 : p1 ≠ "") (he2 : e2 ≠ "") (hp2 : p2 ≠ "")
    (h1 : users.find? (fun x => x.email == e1) = none)
    (h2 : users.find? (fun x => x.email == e2) = some u)
    (h3 : cmp p2 u.password = false) :
    login users cmp sign (some e1) (some p1) =
      login users cmp sign (some e2) (some p2) ∧
    (login users cmp sign (some e1) (some p1)).status = 401 ∧
    (login users cmp sign (some e1) (some p1)).message =
      "Invalid email or password" := by
  rw [login_eq users cmp sign e1 p1 (beq_eq_false_iff_ne.mpr he1)
        (beq_eq_false_iff_ne.mpr hp1),
      login_eq users cmp sign e2 p2 (beq_eq_false_iff_ne.mpr he2)
        (beq_eq_false_iff_ne.mpr hp2),
      h1, h2]
  simp [h3]

/-- Witness for C9: a one-user table, an unknown email versus the
registered email with a failing comparison. -/
theorem c9_login_failure_uniform_witness :
    login [⟨"u1", "a@b.c", "stored-hash"⟩] (fun _ _ => false) (fun s => s)
        (some "x@y.z") (some "pw") =
      login [⟨"u1", "a@b.c", "stored-hash"⟩] (fun _ _ => false) (fun s => s)
        (some "a@b.c") (some "pw") ∧
    (login [⟨"u1", "a@b.c", "stored-hash"⟩] (fun _ _ => false) (fun s => s)
        (some "x@y.z") (some "pw")).status = 401 ∧
    (login [⟨"u1", "a@b.c", "stored-hash"⟩] (fun _ _ => false) (fun s => s)
        (some "x@y.z") (some "pw")).message = "Invalid email or password" :=
  c9_login_failure_uniform [⟨"u1", "a@b.c", "stored-hash"⟩] (fun _ _ => false)
    (fun s => s) "x@y.z" "pw" "a@b.c" "pw" ⟨"u1", "a@b.c", "stored-hash"⟩
    (by decide) (by decide) (by decide) (by decide) (by decide) (by decide)
    (by decide)

/-! ## Claim C10 -/

/-- C10: condition lookup is case-insensitive — pre-lowercasing the
condition changes neither `enrichPrediction` nor `isChatEnabled`
(including on the prototype-chain corner inputs, which behave
identically on both sides), because `normalizeConditionName` lowercases
its input before alias substitution and character filtering. -/
theorem c10_case_insensitive_lookup (db : DiseaseDatabase) (s : String)
    (confidence : ℚ) :
    enrichPrediction db (jsToLower s) confidence = enrichPrediction db s confidence ∧
    isChatEnabled db (jsToLower s) = isChatEnabled db s := by
  constructor
  · unfold enrichPrediction
    rw [normalizeConditionName_jsToLower]
  · unfold isChatEnabled
    rw [normalizeConditionName_jsToLower]

end SkinSense

